import Mathlib

/-!
Shallow embedding of the submission-intake service in `src/main.py`
(FastAPI + SQLAlchemy + one file write).

The mutable world is modelled explicitly:
  * the relational table `submission` is a list of committed rows;
  * the `codes/` directory is an association list from file path to contents;
  * the possibility that a file write fails (missing directory, read-only
    disk, ...) is a Boolean oracle `writeOk : String → Bool` consulted at
    the path being written;
  * wall-clock time is an explicit `now : Nat` parameter (the two
    `datetime.datetime.utcnow` column defaults fire at insertion time).

Handlers are pure functions from a request and a world state to an
outcome, a new world state, and a trace of externally visible effects
(row commits and file writes), so that ordering and exactly-once
properties can be stated.

The framework's error paths are modelled as they actually behave: an
exception handler must return a Response object, and the plain dicts
these handlers return fail to render (`renderReturn`), so both the
not-found path and the internal-error path end in the server's fallback
plain-text 500 rather than the handlers' JSON bodies.
-/

/-- The SQLAlchemy model `Submission` (src/main.py lines 38-45): one row of
the `submission` table.  `id` is the store-generated integer primary key;
`created_at` and `updated_at` default to the current time at insertion;
`status` defaults to the literal string used in the source. -/
structure Submission where
  id : Nat
  username : String
  password : String
  created_at : Nat
  updated_at : Nat
  status : String
deriving Repr, DecidableEq

/-- The Pydantic request model `SubmissionCreate` (src/main.py lines 55-58):
three required string fields. -/
structure SubmissionCreate where
  username : String
  password : String
  code : String
deriving Repr, DecidableEq

/-- A raw request body before Pydantic validation: each of the three fields
may be absent (`none`) or present with a string value. -/
structure RawRequest where
  username : Option String
  password : Option String
  code : Option String
deriving Repr, DecidableEq

/-- Pydantic validation of `SubmissionCreate`: all three fields are
required (they have type `str` and no default), so a body omitting any of
them fails model validation and FastAPI answers 422 before the route
handler runs; a body carrying all three (any strings, empty included)
constructs the model. -/
def parseSubmission (r : RawRequest) : Option SubmissionCreate :=
  match r.username, r.password, r.code with
  | some u, some p, some c => some ⟨u, p, c⟩
  | _, _, _ => none

/-- The filesystem under `codes/`: newest write first, one entry per path. -/
abbrev FileStore := List (String × String)

/-- `open(path, "w")` followed by a full write: creates the file or
truncates an existing one, leaving exactly the given contents. -/
def writeFile (fs : FileStore) (path contents : String) : FileStore :=
  (path, contents) :: List.filter (fun e => ¬ e.1 = path) fs

/-- Read back a file's contents, `none` when no such file exists. -/
def readFile (fs : FileStore) (path : String) : Option String :=
  Option.map Prod.snd (List.find? (fun e => e.1 = path) fs)

/-- The world the service mutates: the committed rows of the `submission`
table (in insertion order) and the files under `codes/`. -/
structure AppState where
  db : List Submission
  fs : FileStore
deriving DecidableEq

/-- The store-generated primary key for the next inserted row: SQLite's
integer primary key is one more than the largest key in the table (1 for
an empty table).  `db.refresh` (src/main.py line 109) surfaces it. -/
def genId (db : List Submission) : Nat :=
  List.foldr max 0 (List.map Submission.id db) + 1

/-- Decimal digit as a character, `0 ↦ 48` in code-point terms. -/
def digitChar (d : Nat) : Char := Char.ofNat (48 + d)

/-- Decimal digits of `n`, least significant first. -/
def natDigitsRev (n : Nat) : List Char :=
  if h : n < 10 then [digitChar n]
  else digitChar (n % 10) :: natDigitsRev (n / 10)
  decreasing_by exact Nat.div_lt_self (by omega) (by omega)

/-- Decimal rendering of a natural number, as Python's string formatting
of an `int` produces it. -/
def natRepr (n : Nat) : String := ⟨(natDigitsRev n).reverse⟩

/-- The path the handler interpolates (src/main.py line 112): the string
`codes/`, then the row id in decimal, then `.py`. -/
def codeFilePath (id : Nat) : String := "codes/" ++ natRepr id ++ ".py"

/-- Externally visible effects of a request, in the order they happen. -/
inductive Event where
  | commit (id : Nat)
  | fileWrite (path : String)
deriving Repr, DecidableEq

/-- How the route handler's Python frame ends: a normal return, a raised
`HTTPException` with a status code and detail string, or an uncaught
exception (the `IOError` of a failed `open`/`write`). -/
inductive Outcome where
  | ok (reservation_id : Nat)
  | httpExc (status : Nat) (detail : String)
  | exc
deriving Repr, DecidableEq

/-- Result of running the route handler: its outcome, the world it leaves
behind, and the trace of effects it performed. -/
structure HResult where
  outcome : Outcome
  state : AppState
  trace : List Event
deriving DecidableEq

/-- The route handler `create_submission` (src/main.py lines 97-115).
Steps: reject with a 400 `HTTPException` when any field is falsy (for
`str`, exactly the empty string); build the row from username and
password only, `db.add`/`db.commit` it (timestamps and status filled by
the column defaults, the id generated by the store); then open
`codes/{id}.py` for writing and write the code text.  A failed write
raises after the commit, leaving the row in place; nothing is rolled
back. -/
def create_submission (sub : SubmissionCreate) (st : AppState) (now : Nat)
    (writeOk : String → Bool) : HResult :=
  if sub.username = "" ∨ sub.password = "" ∨ sub.code = "" then
    ⟨.httpExc 400 "Missing required fields", st, []⟩
  else
    let id := genId st.db
    let row : Submission :=
      ⟨id, sub.username, sub.password, now, now, "SUBMITTED"⟩
    let db' := st.db ++ [row]
    let path := codeFilePath id
    if writeOk path then
      ⟨.ok id, ⟨db', writeFile st.fs path sub.code⟩,
        [.commit id, .fileWrite path]⟩
    else
      ⟨.exc, ⟨db', st.fs⟩, [.commit id]⟩

/-- A JSON scalar or the opaque validation-error array Pydantic reports. -/
inductive JVal where
  | s (v : String)
  | n (v : Nat)
  | validationErrors
deriving Repr, DecidableEq

/-- A JSON object body, as a field list. -/
abbrev JBody := List (String × JVal)

/-- The body of an HTTP response as delivered to the client: a rendered
JSON object, or the plain-text payload of the server's fallback error
response. -/
inductive RespBody where
  | json (b : JBody)
  | text (v : String)
deriving Repr, DecidableEq

/-- An HTTP response: status code and delivered body. -/
structure Response where
  status : Nat
  body : RespBody
deriving DecidableEq

/-- The 404 handler (src/main.py lines 120-122): a fixed body, the
arguments unused; the framework keeps the 404 status. -/
def custom_404_handler (_request : String × String) (_exc : Unit) : JBody :=
  [("error", JVal.s "Not Found")]

/-- The 500 handler (src/main.py lines 124-126): a fixed body, the
arguments unused; the framework keeps the 500 status. -/
def custom_500_handler (_request : String × String) (_exc : Unit) : JBody :=
  [("error", JVal.s "Internal Server Error")]

/-- A Python value an exception handler can return to the framework: the
dicts these handlers build, or a proper Response object. -/
inductive PyValue where
  | dict (b : JBody)
  | response (status : Nat) (body : RespBody)
deriving Repr, DecidableEq

/-- Starlette sending an exception handler's return value: a Response
object is rendered as-is, while a plain dict is not an ASGI callable, so
the send raises a TypeError instead of producing a response. -/
def renderReturn (v : PyValue) : Except Unit Response :=
  match v with
  | .response s b => .ok ⟨s, b⟩
  | .dict _ => .error ()

/-- The built-in plain-text 500 the server falls back to when the
500-handler layer itself fails. -/
def fallbackServerError : Response :=
  ⟨500, RespBody.text "Internal Server Error"⟩

/-- The framework's 500 path: run the installed 500 handler on the
request and render what it returns; because that handler returns a dict,
the rendering raises, and the server's fallback plain-text 500 is sent
instead of the handler's JSON body. -/
def serverErrorLayer (request : String × String) : Response :=
  match renderReturn (PyValue.dict (custom_500_handler request ())) with
  | .ok r => r
  | .error _ => fallbackServerError

/-- The framework's not-found path: the router's 404 HTTPException
reaches the installed 404 handler and its return is rendered; the dict
that handler returns makes the rendering raise, and the failure falls
through to the 500 path (whose own dict also fails to render). -/
def notFoundLayer (request : String × String) : Response :=
  match renderReturn (PyValue.dict (custom_404_handler request ())) with
  | .ok r => r
  | .error _ => serverErrorLayer request

/-- Result of the framework handling one request. -/
structure AppResult where
  resp : Response
  state : AppState
  trace : List Event
deriving DecidableEq

/-- POST /submit as the framework runs it: Pydantic-validate the body
(422 on a missing field, before the handler runs), then run
`create_submission`; a raised `HTTPException` is served by FastAPI's
default handler as a JSON detail body, while an uncaught exception takes
the framework's 500 path (`serverErrorLayer`). -/
def post_submit (req : RawRequest) (st : AppState) (now : Nat)
    (writeOk : String → Bool) : AppResult :=
  match parseSubmission req with
  | none => ⟨⟨422, .json [("detail", JVal.validationErrors)]⟩, st, []⟩
  | some sub =>
    let r := create_submission sub st now writeOk
    match r.outcome with
    | .ok id => ⟨⟨200, .json [("reservation_id", JVal.n id)]⟩, r.state, r.trace⟩
    | .httpExc s d => ⟨⟨s, .json [("detail", JVal.s d)]⟩, r.state, r.trace⟩
    | .exc => ⟨serverErrorLayer ("POST", "/submit"), r.state, r.trace⟩

/-- The only route the application registers (src/main.py line 97). -/
def route_match (method path : String) : Bool :=
  method = "POST" ∧ path = "/submit"

/-- Full dispatch: a request matching the one route runs POST /submit;
any other request takes the framework's not-found path
(`notFoundLayer`), which touches no state. -/
def app_handle (method path : String) (req : RawRequest) (st : AppState)
    (now : Nat) (writeOk : String → Bool) : AppResult :=
  if route_match method path then post_submit req st now writeOk
  else ⟨notFoundLayer (method, path), st, []⟩

/-! ### Helper lemmas -/

theorem digitChar_inj_fin : ∀ a b : Fin 10,
    digitChar a.val = digitChar b.val → a = b := by decide

theorem digitChar_inj {a b : Nat} (ha : a < 10) (hb : b < 10)
    (h : digitChar a = digitChar b) : a = b := by
  have := digitChar_inj_fin ⟨a, ha⟩ ⟨b, hb⟩ h
  exact congrArg Fin.val this

theorem natDigitsRev_ne_nil (n : Nat) : natDigitsRev n ≠ [] := by
  rw [natDigitsRev]
  split <;> simp

theorem natDigitsRev_inj : ∀ m n : Nat, natDigitsRev m = natDigitsRev n → m = n := by
  intro m
  induction m using Nat.strong_induction_on with
  | _ m ih =>
    intro n h
    unfold natDigitsRev at h
    by_cases hm : m < 10 <;> by_cases hn : n < 10
    · rw [dif_pos hm, dif_pos hn] at h
      injection h with h1 _
      exact digitChar_inj hm hn h1
    · rw [dif_pos hm, dif_neg hn] at h
      injection h with _ h2
      exact absurd h2.symm (natDigitsRev_ne_nil _)
    · rw [dif_neg hm, dif_pos hn] at h
      injection h with _ h2
      exact absurd h2 (natDigitsRev_ne_nil _)
    · rw [dif_neg hm, dif_neg hn] at h
      injection h with h1 h2
      have hmod : m % 10 = n % 10 :=
        digitChar_inj (Nat.mod_lt _ (by omega)) (Nat.mod_lt _ (by omega)) h1
      have hdiv : m / 10 = n / 10 :=
        ih (m / 10) (Nat.div_lt_self (by omega) (by omega)) _ h2
      omega

theorem natRepr_inj {m n : Nat} (h : natRepr m = natRepr n) : m = n := by
  apply natDigitsRev_inj
  have hd : (natDigitsRev m).reverse = (natDigitsRev n).reverse :=
    congrArg String.data h
  exact List.reverse_injective hd

theorem codeFilePath_inj {m n : Nat} (h : codeFilePath m = codeFilePath n) :
    m = n := by
  apply natRepr_inj
  have hd := congrArg String.data h
  simp only [codeFilePath, String.data_append, List.append_assoc] at hd
  have := List.append_cancel_left hd
  have := List.append_cancel_right this
  exact congrArg String.mk this

theorem le_foldr_max {a : Nat} {l : List Nat} (h : a ∈ l) :
    a ≤ List.foldr max 0 l := by
  induction l with
  | nil => cases h
  | cons b t ihl =>
    rcases List.mem_cons.mp h with rfl | ht
    · exact le_max_left _ _
    · exact le_trans (ihl ht) (le_max_right _ _)

theorem lt_genId {r : Submission} {db : List Submission} (h : r ∈ db) :
    r.id < genId db := by
  have : r.id ∈ List.map Submission.id db := List.mem_map_of_mem _ h
  have := le_foldr_max this
  unfold genId
  omega

theorem readFile_writeFile_self (fs : FileStore) (p c : String) :
    readFile (writeFile fs p c) p = some c := by
  simp [readFile, writeFile]

theorem find?_filter_ne (fs : List (String × String)) (p q : String)
    (h : q ≠ p) :
    List.find? (fun e => e.1 = q) (List.filter (fun e => ¬ e.1 = p) fs)
      = List.find? (fun e => e.1 = q) fs := by
  induction fs with
  | nil => rfl
  | cons e t ihf =>
    by_cases hep : e.1 = p
    · have heq : ¬ e.1 = q := fun hh => h (hh ▸ hep)
      rw [List.filter_cons_of_neg (by simpa using hep), ihf,
        List.find?_cons_of_neg _ (by simpa using heq)]
    · rw [List.filter_cons_of_pos (by simpa using hep)]
      by_cases heq : e.1 = q
      · rw [List.find?_cons_of_pos _ (by simpa using heq),
          List.find?_cons_of_pos _ (by simpa using heq)]
      · rw [List.find?_cons_of_neg _ (by simpa using heq), ihf,
          List.find?_cons_of_neg _ (by simpa using heq)]

theorem readFile_writeFile_other (fs : FileStore) (p c q : String)
    (h : q ≠ p) : readFile (writeFile fs p c) q = readFile fs q := by
  unfold readFile writeFile
  have hne : ¬ (p, c).1 = q := fun hh => h hh.symm
  rw [List.find?_cons_of_neg, find?_filter_ne fs p q h]
  simpa using hne

/-- Behaviour of the handler when any required field is empty: a 400
`HTTPException`, the world untouched, no effect performed. -/
theorem create_submission_invalid (sub : SubmissionCreate) (st : AppState)
    (now : Nat) (w : String → Bool)
    (h : sub.username = "" ∨ sub.password = "" ∨ sub.code = "") :
    create_submission sub st now w
      = ⟨.httpExc 400 "Missing required fields", st, []⟩ := by
  unfold create_submission
  rw [if_pos h]

/-- Behaviour of the handler on a fully valid submission whose file write
succeeds: the row is appended, the file holds the code, the trace is one
commit followed by one file write. -/
theorem create_submission_ok (sub : SubmissionCreate) (st : AppState)
    (now : Nat) (w : String → Bool)
    (hu : sub.username ≠ "") (hp : sub.password ≠ "") (hc : sub.code ≠ "")
    (hw : w (codeFilePath (genId st.db)) = true) :
    create_submission sub st now w
      = ⟨.ok (genId st.db),
         ⟨st.db ++ [⟨genId st.db, sub.username, sub.password, now, now, "SUBMITTED"⟩],
          writeFile st.fs (codeFilePath (genId st.db)) sub.code⟩,
         [.commit (genId st.db), .fileWrite (codeFilePath (genId st.db))]⟩ := by
  unfold create_submission
  rw [if_neg (by push_neg; exact ⟨hu, hp, hc⟩), if_pos hw]

/-- Behaviour of the handler on a valid submission whose file write
fails: the commit already happened, the row stays, no file is written,
and the handler ends in an uncaught exception. -/
theorem create_submission_writeFail (sub : SubmissionCreate) (st : AppState)
    (now : Nat) (w : String → Bool)
    (hu : sub.username ≠ "") (hp : sub.password ≠ "") (hc : sub.code ≠ "")
    (hw : w (codeFilePath (genId st.db)) = false) :
    create_submission sub st now w
      = ⟨.exc,
         ⟨st.db ++ [⟨genId st.db, sub.username, sub.password, now, now, "SUBMITTED"⟩],
          st.fs⟩,
         [.commit (genId st.db)]⟩ := by
  unfold create_submission
  rw [if_neg (by push_neg; exact ⟨hu, hp, hc⟩), if_neg (by simp [hw])]

/-! ### Claim theorems -/

/-- C1: a POST /submit request whose username, password and code are all
present and non-empty gets a 200 response whose body is
`reservation_id = id` with `id` the store-generated primary key of the
one newly inserted row, and the file at the path built from that id holds
the submitted code text exactly (arbitrary strings, so newlines, unicode
and embedded quotes included). -/
theorem submit_valid_creates_row_and_file (u p c : String) (st : AppState)
    (now : Nat) (w : String → Bool)
    (hu : u ≠ "") (hp : p ≠ "") (hc : c ≠ "")
    (hw : w (codeFilePath (genId st.db)) = true) :
    (post_submit ⟨some u, some p, some c⟩ st now w).resp
      = ⟨200, .json [("reservation_id", JVal.n (genId st.db))]⟩
    ∧ (post_submit ⟨some u, some p, some c⟩ st now w).state.db
      = st.db ++ [⟨genId st.db, u, p, now, now, "SUBMITTED"⟩]
    ∧ readFile (post_submit ⟨some u, some p, some c⟩ st now w).state.fs
        (codeFilePath (genId st.db)) = some c := by
  simp only [post_submit, parseSubmission]
  rw [create_submission_ok ⟨u, p, c⟩ st now w hu hp hc hw]
  exact ⟨rfl, rfl, readFile_writeFile_self _ _ _⟩

/-- Witness for C1 at a concrete request whose code holds a newline,
unicode and embedded quotes, against an empty store. -/
theorem submit_valid_creates_row_and_file_witness :
    (post_submit ⟨some "alice", some "secret", some "print(\"héllo\")\nx = 1\n"⟩
        ⟨[], []⟩ 7 (fun _ => true)).resp
      = ⟨200, .json [("reservation_id", JVal.n 1)]⟩
    ∧ (post_submit ⟨some "alice", some "secret", some "print(\"héllo\")\nx = 1\n"⟩
        ⟨[], []⟩ 7 (fun _ => true)).state.db
      = [⟨1, "alice", "secret", 7, 7, "SUBMITTED"⟩]
    ∧ readFile (post_submit ⟨some "alice", some "secret",
          some "print(\"héllo\")\nx = 1\n"⟩ ⟨[], []⟩ 7 (fun _ => true)).state.fs
        (codeFilePath 1) = some "print(\"héllo\")\nx = 1\n" := by
  have h := submit_valid_creates_row_and_file "alice" "secret"
    "print(\"héllo\")\nx = 1\n" ⟨[], []⟩ 7 (fun _ => true)
    (by decide) (by decide) (by decide) rfl
  simpa using h

/-- C2 counterexample: a request omitting `username` (the other two
fields present and non-empty) is answered with status 422 by the
validation layer, not with the claimed 400, though indeed without any row
or file effect. -/
theorem submit_omitted_field_not_400 :
    (post_submit ⟨none, some "secret", some "x = 1"⟩ ⟨[], []⟩ 0
        (fun _ => true)).resp.status = 422
    ∧ ¬ (post_submit ⟨none, some "secret", some "x = 1"⟩ ⟨[], []⟩ 0
        (fun _ => true)).resp.status = 400 := by
  decide

/-- C2 amended: a request carrying all three fields with at least one
equal to the empty string is answered 400 with detail
"Missing required fields" and has no effect; a request omitting a field
is rejected by the framework's request validation with status 422,
likewise with no row inserted and no file written. -/
theorem submit_empty_or_missing_fields :
    (∀ u p c st now w, (u = "" ∨ p = "" ∨ c = "") →
      post_submit ⟨some u, some p, some c⟩ st now w
        = ⟨⟨400, .json [("detail", JVal.s "Missing required fields")]⟩, st, []⟩)
    ∧ (∀ r st now w,
        (r.username = none ∨ r.password = none ∨ r.code = none) →
        post_submit r st now w
          = ⟨⟨422, .json [("detail", JVal.validationErrors)]⟩, st, []⟩) := by
  constructor
  · intro u p c st now w h
    simp only [post_submit, parseSubmission]
    rw [create_submission_invalid ⟨u, p, c⟩ st now w h]
  · intro r st now w h
    have hps : parseSubmission r = none := by
      obtain ⟨ru, rp, rc⟩ := r
      rcases h with h | h | h <;> simp_all [parseSubmission]
    simp only [post_submit, hps]

/-- Witness for C2 amended: an empty username with the other fields
filled gives the 400 with no effect; a request missing its code field
gives the 422 with no effect. -/
theorem submit_empty_or_missing_fields_witness :
    post_submit ⟨some "", some "secret", some "x = 1"⟩ ⟨[], []⟩ 3 (fun _ => true)
      = ⟨⟨400, .json [("detail", JVal.s "Missing required fields")]⟩, ⟨[], []⟩, []⟩
    ∧ post_submit ⟨some "bob", some "secret", none⟩ ⟨[], []⟩ 3 (fun _ => true)
      = ⟨⟨422, .json [("detail", JVal.validationErrors)]⟩, ⟨[], []⟩, []⟩ :=
  ⟨submit_empty_or_missing_fields.1 "" "secret" "x = 1" ⟨[], []⟩ 3 (fun _ => true)
      (Or.inl rfl),
   submit_empty_or_missing_fields.2 ⟨some "bob", some "secret", none⟩ ⟨[], []⟩ 3
      (fun _ => true) (Or.inr (Or.inr rfl))⟩

/-- C3: when the file write fails after the commit succeeded, no rollback
happens: the handler ends in an uncaught exception that propagates to the
framework's 500 path (the client gets a status-500 response), the
inserted row is still in the committed store, the filesystem is
untouched, and the trace shows the commit as the only effect. -/
theorem write_failure_after_commit_orphans_row (u p c : String)
    (st : AppState) (now : Nat) (w : String → Bool)
    (hu : u ≠ "") (hp : p ≠ "") (hc : c ≠ "")
    (hw : w (codeFilePath (genId st.db)) = false) :
    (create_submission ⟨u, p, c⟩ st now w).outcome = .exc
    ∧ (post_submit ⟨some u, some p, some c⟩ st now w).resp.status = 500
    ∧ (post_submit ⟨some u, some p, some c⟩ st now w).state.db
      = st.db ++ [⟨genId st.db, u, p, now, now, "SUBMITTED"⟩]
    ∧ (post_submit ⟨some u, some p, some c⟩ st now w).state.fs = st.fs
    ∧ (post_submit ⟨some u, some p, some c⟩ st now w).trace
      = [Event.commit (genId st.db)] := by
  simp only [post_submit, parseSubmission]
  rw [create_submission_writeFail ⟨u, p, c⟩ st now w hu hp hc hw]
  exact ⟨rfl, rfl, rfl, rfl, rfl⟩

/-- Witness for C3: a valid request against an empty store with every
file write failing leaves exactly the orphaned row and an empty
filesystem behind a 500 response. -/
theorem write_failure_after_commit_orphans_row_witness :
    (create_submission ⟨"alice", "pw", "x = 1"⟩ ⟨[], []⟩ 1
        (fun _ => false)).outcome = .exc
    ∧ (post_submit ⟨some "alice", some "pw", some "x = 1"⟩ ⟨[], []⟩ 1
        (fun _ => false)).resp.status = 500
    ∧ (post_submit ⟨some "alice", some "pw", some "x = 1"⟩ ⟨[], []⟩ 1
        (fun _ => false)).state.db
      = [⟨1, "alice", "pw", 1, 1, "SUBMITTED"⟩]
    ∧ (post_submit ⟨some "alice", some "pw", some "x = 1"⟩ ⟨[], []⟩ 1
        (fun _ => false)).state.fs = []
    ∧ (post_submit ⟨some "alice", some "pw", some "x = 1"⟩ ⟨[], []⟩ 1
        (fun _ => false)).trace = [Event.commit 1] := by
  have h := write_failure_after_commit_orphans_row "alice" "pw" "x = 1"
    ⟨[], []⟩ 1 (fun _ => false) (by decide) (by decide) (by decide) rfl
  simpa using h

theorem sequential_submissions_distinct (sub1 sub2 : SubmissionCreate)
    (st : AppState) (t1 t2 : Nat) (w : String → Bool)
    (h1u : sub1.username ≠ "") (h1p : sub1.password ≠ "") (h1c : sub1.code ≠ "")
    (h2u : sub2.username ≠ "") (h2p : sub2.password ≠ "") (h2c : sub2.code ≠ "")
    (hw1 : w (codeFilePath (genId st.db)) = true)
    (hw2 : w (codeFilePath (genId (create_submission sub1 st t1 w).state.db)) = true) :
    ∃ id1 id2,
      (create_submission sub1 st t1 w).outcome = .ok id1
      ∧ (create_submission sub2 (create_submission sub1 st t1 w).state t2 w).outcome
        = .ok id2
      ∧ id1 ≠ id2
      ∧ readFile (create_submission sub2 (create_submission sub1 st t1 w).state t2 w).state.fs
          (codeFilePath id1) = some sub1.code
      ∧ readFile (create_submission sub2 (create_submission sub1 st t1 w).state t2 w).state.fs
          (codeFilePath id2) = some sub2.code := by
  have e1 := create_submission_ok sub1 st t1 w h1u h1p h1c hw1
  have hst1 : (create_submission sub1 st t1 w).state
      = ⟨st.db ++ [⟨genId st.db, sub1.username, sub1.password, t1, t1, "SUBMITTED"⟩],
         writeFile st.fs (codeFilePath (genId st.db)) sub1.code⟩ := by
    rw [e1]
  have hw2' : w (codeFilePath (genId
      (st.db ++ [⟨genId st.db, sub1.username, sub1.password, t1, t1, "SUBMITTED"⟩]))) = true := by
    rw [hst1] at hw2
    exact hw2
  have e2 := create_submission_ok sub2
    ⟨st.db ++ [⟨genId st.db, sub1.username, sub1.password, t1, t1, "SUBMITTED"⟩],
     writeFile st.fs (codeFilePath (genId st.db)) sub1.code⟩ t2 w h2u h2p h2c hw2'
  have hlt : genId st.db < genId
      (st.db ++ [⟨genId st.db, sub1.username, sub1.password, t1, t1, "SUBMITTED"⟩]) := by
    have hmem : (⟨genId st.db, sub1.username, sub1.password, t1, t1, "SUBMITTED"⟩ : Submission)
        ∈ st.db ++ [⟨genId st.db, sub1.username, sub1.password, t1, t1, "SUBMITTED"⟩] := by
      simp
    simpa using lt_genId hmem
  have hne : codeFilePath (genId st.db) ≠ codeFilePath (genId
      (st.db ++ [⟨genId st.db, sub1.username, sub1.password, t1, t1, "SUBMITTED"⟩])) :=
    fun hh => Nat.ne_of_lt hlt (codeFilePath_inj hh)
  refine ⟨genId st.db,
    genId (st.db ++ [⟨genId st.db, sub1.username, sub1.password, t1, t1, "SUBMITTED"⟩]),
    ?_, ?_, Nat.ne_of_lt hlt, ?_, ?_⟩
  · rw [e1]
  · rw [hst1, e2]
  · rw [hst1, e2]
    dsimp only
    rw [readFile_writeFile_other _ _ _ _ hne, readFile_writeFile_self]
  · rw [hst1, e2]
    dsimp only
    rw [readFile_writeFile_self]

/-- Witness for C4: two concrete submissions against an empty store,
every write succeeding. -/
theorem sequential_submissions_distinct_witness :
    ∃ id1 id2,
      (create_submission ⟨"ann", "p1", "print(1)"⟩ ⟨[], []⟩ 1
          (fun _ => true)).outcome = .ok id1
      ∧ (create_submission ⟨"bob", "p2", "print(2)"⟩
          (create_submission ⟨"ann", "p1", "print(1)"⟩ ⟨[], []⟩ 1
            (fun _ => true)).state 2 (fun _ => true)).outcome = .ok id2
      ∧ id1 ≠ id2
      ∧ readFile (create_submission ⟨"bob", "p2", "print(2)"⟩
            (create_submission ⟨"ann", "p1", "print(1)"⟩ ⟨[], []⟩ 1
              (fun _ => true)).state 2 (fun _ => true)).state.fs
          (codeFilePath id1) = some "print(1)"
      ∧ readFile (create_submission ⟨"bob", "p2", "print(2)"⟩
            (create_submission ⟨"ann", "p1", "print(1)"⟩ ⟨[], []⟩ 1
              (fun _ => true)).state 2 (fun _ => true)).state.fs
          (codeFilePath id2) = some "print(2)" :=
  sequential_submissions_distinct ⟨"ann", "p1", "print(1)"⟩ ⟨"bob", "p2", "print(2)"⟩
    ⟨[], []⟩ 1 2 (fun _ => true)
    (by decide) (by decide) (by decide) (by decide) (by decide) (by decide) rfl rfl

/-- Any already-committed row survives a POST /submit, whatever the
request body or write outcome: the handler only ever appends. -/
theorem post_submit_db_mono (req : RawRequest) (st : AppState) (now : Nat)
    (w : String → Bool) {r : Submission} (hr : r ∈ st.db) :
    r ∈ (post_submit req st now w).state.db := by
  have hdb : ∀ sub, r ∈ (create_submission sub st now w).state.db := by
    intro sub
    by_cases hv : sub.username = "" ∨ sub.password = "" ∨ sub.code = ""
    · rw [create_submission_invalid sub st now w hv]
      exact hr
    · push_neg at hv
      obtain ⟨hu, hp, hc⟩ := hv
      by_cases hw : w (codeFilePath (genId st.db)) = true
      · rw [create_submission_ok sub st now w hu hp hc hw]
        exact List.mem_append_left _ hr
      · rw [create_submission_writeFail sub st now w hu hp hc (by simpa using hw)]
        exact List.mem_append_left _ hr
  unfold post_submit
  cases hps : parseSubmission req with
  | none => simpa using hr
  | some sub =>
    dsimp only
    rcases ho : (create_submission sub st now w).outcome <;> simp only [ho] <;>
      exact hdb sub

/-- C5 counterexample: a request matching no route is not answered 404
with the body the 404 handler builds: rendering that handler's dict
raises, the failure falls through to the 500 layer whose dict also fails
to render, and the server's plain-text 500 is sent — the status is
altered and neither JSON body is delivered. -/
theorem unmatched_route_plain_500 :
    (app_handle "GET" "/nope" ⟨none, none, none⟩ ⟨[], []⟩ 0 (fun _ => true)).resp
      = ⟨500, RespBody.text "Internal Server Error"⟩
    ∧ ¬ (app_handle "GET" "/nope" ⟨none, none, none⟩ ⟨[], []⟩ 0
        (fun _ => true)).resp.status = 404
    ∧ ¬ (app_handle "GET" "/nope" ⟨none, none, none⟩ ⟨[], []⟩ 0
        (fun _ => true)).resp.body
      = RespBody.json [("error", JVal.s "Not Found")] := by
  decide

/-- C5 amended: the two handlers as written do return the fixed dict
bodies named in the claim, but the framework cannot render a dict
returned by an exception handler: a request matching no route is
answered with the server-level plain-text 500 (the 404 status is not
preserved and the "Not Found" body is never delivered, though no state
is touched), and an internal-error condition (a failed file write on a
valid submission) is likewise answered with the plain-text 500 rather
than the 500 handler's JSON body. -/
theorem error_handler_dicts_never_rendered :
    (∀ req e, custom_404_handler req e = [("error", JVal.s "Not Found")]
      ∧ custom_500_handler req e = [("error", JVal.s "Internal Server Error")])
    ∧ (∀ method path req st now w, route_match method path = false →
        (app_handle method path req st now w).resp
          = ⟨500, RespBody.text "Internal Server Error"⟩
        ∧ (app_handle method path req st now w).state = st)
    ∧ (∀ u p c st now w, u ≠ "" → p ≠ "" → c ≠ "" →
        w (codeFilePath (genId st.db)) = false →
        (post_submit ⟨some u, some p, some c⟩ st now w).resp
          = ⟨500, RespBody.text "Internal Server Error"⟩) := by
  refine ⟨fun req e => ⟨rfl, rfl⟩, ?_, ?_⟩
  · intro method path req st now w h
    constructor <;> simp [app_handle, h, notFoundLayer, serverErrorLayer,
      renderReturn, custom_404_handler, custom_500_handler, fallbackServerError]
  · intro u p c st now w hu hp hc hw
    simp only [post_submit, parseSubmission]
    rw [create_submission_writeFail ⟨u, p, c⟩ st now w hu hp hc hw]
    rfl

/-- Witness for C5 amended: a GET of an unregistered path, and a valid
submission whose file write fails. -/
theorem error_handler_dicts_never_rendered_witness :
    ((app_handle "GET" "/missing" ⟨none, none, none⟩ ⟨[], []⟩ 0
        (fun _ => true)).resp = ⟨500, RespBody.text "Internal Server Error"⟩
    ∧ (app_handle "GET" "/missing" ⟨none, none, none⟩ ⟨[], []⟩ 0
        (fun _ => true)).state = ⟨[], []⟩)
    ∧ (post_submit ⟨some "ann", some "pw", some "x"⟩ ⟨[], []⟩ 0
        (fun _ => false)).resp = ⟨500, RespBody.text "Internal Server Error"⟩ :=
  ⟨error_handler_dicts_never_rendered.2.1 "GET" "/missing" ⟨none, none, none⟩
      ⟨[], []⟩ 0 (fun _ => true) (by decide),
   error_handler_dicts_never_rendered.2.2 "ann" "pw" "x" ⟨[], []⟩ 0
      (fun _ => false) (by decide) (by decide) (by decide) rfl⟩

/-- C6: every row the endpoint inserts has status "SUBMITTED" and both
timestamps equal to the insertion time, and no exposed operation ever
mutates an existing row (in particular its status): every row present
before any request is still present, unchanged, afterwards. -/
theorem new_row_defaults_and_rows_preserved :
    (∀ sub st now (w : String → Bool),
      sub.username ≠ "" → sub.password ≠ "" → sub.code ≠ "" →
      ∃ row : Submission,
        (create_submission sub st now w).state.db = st.db ++ [row]
        ∧ row.status = "SUBMITTED" ∧ row.created_at = now ∧ row.updated_at = now)
    ∧ (∀ method path req st now w (r : Submission), r ∈ st.db →
        r ∈ (app_handle method path req st now w).state.db) := by
  constructor
  · intro sub st now w hu hp hc
    refine ⟨⟨genId st.db, sub.username, sub.password, now, now, "SUBMITTED"⟩,
      ?_, rfl, rfl, rfl⟩
    by_cases hw : w (codeFilePath (genId st.db)) = true
    · rw [create_submission_ok sub st now w hu hp hc hw]
    · rw [create_submission_writeFail sub st now w hu hp hc (by simpa using hw)]
  · intro method path req st now w r hr
    unfold app_handle
    by_cases hroute : route_match method path = true
    · rw [if_pos hroute]
      exact post_submit_db_mono req st now w hr
    · rw [if_neg hroute]
      exact hr

/-- Witness for C6: a concrete insertion getting the defaults, and a
pre-existing row surviving a further request. -/
theorem new_row_defaults_and_rows_preserved_witness :
    (∃ row : Submission,
      (create_submission ⟨"ann", "pw", "x"⟩ ⟨[], []⟩ 9 (fun _ => true)).state.db
        = [] ++ [row]
      ∧ row.status = "SUBMITTED" ∧ row.created_at = 9 ∧ row.updated_at = 9)
    ∧ (⟨1, "ann", "pw", 9, 9, "SUBMITTED"⟩ : Submission)
      ∈ (app_handle "POST" "/submit" ⟨some "bob", some "pw2", some "y"⟩
          ⟨[⟨1, "ann", "pw", 9, 9, "SUBMITTED"⟩], []⟩ 10 (fun _ => true)).state.db :=
  ⟨new_row_defaults_and_rows_preserved.1 ⟨"ann", "pw", "x"⟩ ⟨[], []⟩ 9
      (fun _ => true) (by decide) (by decide) (by decide),
   new_row_defaults_and_rows_preserved.2 "POST" "/submit"
      ⟨some "bob", some "pw2", some "y"⟩ ⟨[⟨1, "ann", "pw", 9, 9, "SUBMITTED"⟩], []⟩
      10 (fun _ => true) ⟨1, "ann", "pw", 9, 9, "SUBMITTED"⟩ (by decide)⟩

/-- C7: for every row the endpoint creates (write succeeding), the trace
is exactly one commit of the row's id followed by exactly one file write
at the path derived from that id — so the write happens once and never
precedes the commit — and the file then holds the code. -/
theorem file_written_once_after_commit (sub : SubmissionCreate) (st : AppState)
    (now : Nat) (w : String → Bool)
    (hu : sub.username ≠ "") (hp : sub.password ≠ "") (hc : sub.code ≠ "")
    (hw : w (codeFilePath (genId st.db)) = true) :
    ∃ id,
      (create_submission sub st now w).trace
        = [Event.commit id, Event.fileWrite (codeFilePath id)]
      ∧ (⟨id, sub.username, sub.password, now, now, "SUBMITTED"⟩ : Submission)
        ∈ (create_submission sub st now w).state.db
      ∧ readFile (create_submission sub st now w).state.fs (codeFilePath id)
        = some sub.code := by
  refine ⟨genId st.db, ?_, ?_, ?_⟩ <;>
    rw [create_submission_ok sub st now w hu hp hc hw]
  · simp
  · exact readFile_writeFile_self _ _ _

/-- Witness for C7 at a concrete valid submission. -/
theorem file_written_once_after_commit_witness :
    ∃ id,
      (create_submission ⟨"ann", "pw", "x = 2"⟩ ⟨[], []⟩ 4 (fun _ => true)).trace
        = [Event.commit id, Event.fileWrite (codeFilePath id)]
      ∧ (⟨id, "ann", "pw", 4, 4, "SUBMITTED"⟩ : Submission)
        ∈ (create_submission ⟨"ann", "pw", "x = 2"⟩ ⟨[], []⟩ 4 (fun _ => true)).state.db
      ∧ readFile (create_submission ⟨"ann", "pw", "x = 2"⟩ ⟨[], []⟩ 4
          (fun _ => true)).state.fs (codeFilePath id) = some "x = 2" :=
  file_written_once_after_commit ⟨"ann", "pw", "x = 2"⟩ ⟨[], []⟩ 4 (fun _ => true)
    (by decide) (by decide) (by decide) rfl

/-- C8: the inserted row's password column holds the submitted password
verbatim (and the username likewise), with no transformation applied. -/
theorem password_stored_verbatim (sub : SubmissionCreate) (st : AppState)
    (now : Nat) (w : String → Bool)
    (hu : sub.username ≠ "") (hp : sub.password ≠ "") (hc : sub.code ≠ "") :
    ∃ row : Submission,
      (create_submission sub st now w).state.db = st.db ++ [row]
      ∧ row.password = sub.password ∧ row.username = sub.username := by
  refine ⟨⟨genId st.db, sub.username, sub.password, now, now, "SUBMITTED"⟩,
    ?_, rfl, rfl⟩
  by_cases hw : w (codeFilePath (genId st.db)) = true
  · rw [create_submission_ok sub st now w hu hp hc hw]
  · rw [create_submission_writeFail sub st now w hu hp hc (by simpa using hw)]

/-- Witness for C8 at a concrete submission. -/
theorem password_stored_verbatim_witness :
    ∃ row : Submission,
      (create_submission ⟨"ann", "hunter2", "x"⟩ ⟨[], []⟩ 0
          (fun _ => true)).state.db = [] ++ [row]
      ∧ row.password = "hunter2" ∧ row.username = "ann" :=
  password_stored_verbatim ⟨"ann", "hunter2", "x"⟩ ⟨[], []⟩ 0 (fun _ => true)
    (by decide) (by decide) (by decide)

/-- C9: the validation raises the 400 "Missing required fields" exactly
when some field is the empty string, so whitespace-only fields pass; in
particular an all-whitespace submission inserts a row and writes its
file like any other valid one. -/
theorem emptiness_check_only_rejects_empty :
    (∀ sub st now (w : String → Bool),
      ((create_submission sub st now w).outcome
        = .httpExc 400 "Missing required fields")
      ↔ (sub.username = "" ∨ sub.password = "" ∨ sub.code = ""))
    ∧ (∀ st now, ∃ row : Submission,
        (create_submission ⟨" ", " ", " "⟩ st now (fun _ => true)).state.db
          = st.db ++ [row]
        ∧ readFile (create_submission ⟨" ", " ", " "⟩ st now (fun _ => true)).state.fs
            (codeFilePath (genId st.db)) = some " ") := by
  constructor
  · intro sub st now w
    constructor
    · intro h
      by_contra hv
      push_neg at hv
      obtain ⟨hu, hp, hc⟩ := hv
      by_cases hw : w (codeFilePath (genId st.db)) = true
      · rw [create_submission_ok sub st now w hu hp hc hw] at h
        exact Outcome.noConfusion h
      · rw [create_submission_writeFail sub st now w hu hp hc (by simpa using hw)] at h
        exact Outcome.noConfusion h
    · intro hv
      rw [create_submission_invalid sub st now w hv]
  · intro st now
    refine ⟨⟨genId st.db, " ", " ", now, now, "SUBMITTED"⟩, ?_, ?_⟩ <;>
      rw [create_submission_ok ⟨" ", " ", " "⟩ st now (fun _ => true)
        (by decide) (by decide) (by decide) rfl]
    exact readFile_writeFile_self _ _ _

/-- C10: the relational store never receives the code text: two valid
submissions differing only in their code leave identical stores, and the
inserted row consists of exactly the id, username, password, timestamps
and status. -/
theorem code_not_persisted_in_store (sub1 sub2 : SubmissionCreate)
    (st : AppState) (now : Nat) (w : String → Bool)
    (hsu : sub1.username = sub2.username) (hsp : sub1.password = sub2.password)
    (h1u : sub1.username ≠ "") (h1p : sub1.password ≠ "")
    (h1c : sub1.code ≠ "") (h2c : sub2.code ≠ "") :
    (create_submission sub1 st now w).state.db
      = (create_submission sub2 st now w).state.db
    ∧ (create_submission sub1 st now w).state.db
      = st.db ++ [⟨genId st.db, sub1.username, sub1.password, now, now, "SUBMITTED"⟩] := by
  have h2u : sub2.username ≠ "" := hsu ▸ h1u
  have h2p : sub2.password ≠ "" := hsp ▸ h1p
  by_cases hw : w (codeFilePath (genId st.db)) = true
  · rw [create_submission_ok sub1 st now w h1u h1p h1c hw,
      create_submission_ok sub2 st now w h2u h2p h2c hw]
    exact ⟨by rw [hsu, hsp], rfl⟩
  · rw [create_submission_writeFail sub1 st now w h1u h1p h1c (by simpa using hw),
      create_submission_writeFail sub2 st now w h2u h2p h2c (by simpa using hw)]
    exact ⟨by rw [hsu, hsp], rfl⟩

/-- Witness for C10: two submissions identical but for their code. -/
theorem code_not_persisted_in_store_witness :
    (create_submission ⟨"ann", "pw", "print(1)"⟩ ⟨[], []⟩ 6 (fun _ => true)).state.db
      = (create_submission ⟨"ann", "pw", "print(2)"⟩ ⟨[], []⟩ 6
          (fun _ => true)).state.db
    ∧ (create_submission ⟨"ann", "pw", "print(1)"⟩ ⟨[], []⟩ 6
          (fun _ => true)).state.db
      = [] ++ [⟨1, "ann", "pw", 6, 6, "SUBMITTED"⟩] :=
  code_not_persisted_in_store ⟨"ann", "pw", "print(1)"⟩ ⟨"ann", "pw", "print(2)"⟩
    ⟨[], []⟩ 6 (fun _ => true) rfl rfl (by decide) (by decide) (by decide) (by decide)
